import Mathlib

/-!
Verification of the FAO land-cover workshop notebooks (Rwanda).

Two subsystems are embedded here, following the source notebooks:

* the training-label filter (`1_Filter_Training_Data.ipynb`):
  `find_clusters_KMeans`, the per-class frequency filter, and the
  per-class orchestration loop;
* the post-classification refinement engine (the post-processing
  notebook): the masked spatial mode filter, the four reclassification
  rules, the single-location pipeline (demo cells and loop body), and
  the all-locations loop that threads the `hand` and `wsf2019`
  variables through `xr_reproject`.

Rasters are embedded as total functions on `Fin h → Fin w`;
machine `uint8` values are plain naturals (no arithmetic overflows
occur: the code only compares and stores class codes).  External
library calls (`skimage.filters.rank.modal`, `binary_dilation`,
`xr_reproject`) are embedded with the semantics they are invoked
with in the notebook (mask/footprint arguments spelled out below).
-/

namespace FaoLc

/-- The class-name/code dictionary `dict_map` from the post-processing
notebook: `{'Forest':1,'Grassland':5,'Shrubland':7,'Perennial Cropland':9,
'Annual Cropland':10,'Wetland':11,'Water Body':12,'Urban Settlement':13}`.
Keys outside the dictionary map to the no-data code 0 (the notebook never
looks one up). -/
def dict_map (c : String) : ℕ :=
  if c = "Forest" then 1
  else if c = "Grassland" then 5
  else if c = "Shrubland" then 7
  else if c = "Perennial Cropland" then 9
  else if c = "Annual Cropland" then 10
  else if c = "Wetland" then 11
  else if c = "Water Body" then 12
  else if c = "Urban Settlement" then 13
  else 0

/-- The class codes of `dict_map` together with the no-data code 0. -/
def classCodesWithNodata : List ℕ := [0, 1, 5, 7, 9, 10, 11, 12, 13]

/-- A categorical raster on an `h × w` pixel grid (class codes). -/
abbrev Grid (h w : ℕ) := Fin h → Fin w → ℕ

/-- All pixel coordinates of an `h × w` grid, row-major. -/
def allPixels (h w : ℕ) : List (Fin h × Fin w) :=
  (List.finRange h).flatMap (fun i => (List.finRange w).map (fun j => (i, j)))

/-- Membership of pixel `q` in the disk of radius `r` centred at `p`
(the `skimage.morphology.disk(r)` footprint: squared Euclidean distance
at most `r^2`). -/
def inDisk {h w : ℕ} (r : ℕ) (p q : Fin h × Fin w) : Bool :=
  decide ((((q.1 : ℕ) : ℤ) - ((p.1 : ℕ) : ℤ)) ^ 2
      + (((q.2 : ℕ) : ℤ) - ((p.2 : ℕ) : ℤ)) ^ 2 ≤ ((r : ℤ)) ^ 2)

/-- The neighbourhood votes collected by
`modal(np_lc_map, footprint=disk(2), mask=np_lc_map!=0)` at pixel `p`:
the values of the in-bounds pixels of the disk-2 footprint around `p`
whose value is not the no-data code 0 (the `mask` argument removes
no-data pixels from every local histogram). -/
def votes {h w : ℕ} (img : Grid h w) (p : Fin h × Fin w) : List ℕ :=
  ((allPixels h w).filter
      (fun q => inDisk 2 p q && (img q.1 q.2 != 0))).map (fun q => img q.1 q.2)

/-- One step of the modal-histogram scan: keep the candidate with the
larger count, preferring the smaller value on equal counts (the
`skimage` rank `modal` kernel scans the histogram in ascending value
order and replaces the mode only on a strictly larger count). -/
def betterMode (l : List ℕ) (acc v : ℕ) : ℕ :=
  if l.count acc < l.count v ∨ (l.count v = l.count acc ∧ v < acc) then v else acc

/-- The most frequent value of a list, ties broken towards the smaller
value; 0 on the empty list (which the filter never consults). -/
def modeVal : List ℕ → ℕ
  | [] => 0
  | a :: t => (a :: t).foldl (betterMode (a :: t)) a

/-- The masked spatial mode filter
`modal(np_lc_map, footprint=disk(2), mask=np_lc_map!=0)`: a no-data
pixel (code 0) is outside the mask and is not rewritten; every other
pixel receives the most frequent non-no-data value of its truncated
disk-2 neighbourhood. -/
def modalFilter {h w : ℕ} (img : Grid h w) : Grid h w :=
  fun i j => if img i j = 0 then img i j else modeVal (votes img (i, j))

/-- The dilated settlement mask
`binary_dilation(np_lc_map==dict_map['Urban Settlement'], footprint=disk(5))`:
true at `p` iff some pixel of the disk-5 footprint around `p` carries the
Urban Settlement code in `orig`. -/
def dilatedUrban {h w : ℕ} (orig : Grid h w) (p : Fin h × Fin w) : Bool :=
  (allPixels h w).any (fun q => inDisk 5 p q && (orig q.1 q.2 == dict_map "Urban Settlement"))

/-- Reclassification rule 1:
`np_lc_map_postproc[((np_lc_map==dict_map['Water Body'])&(np_hand<=45))
|(np_river_network_mask==1)]=dict_map['Water Body']`.
`hand` is the reprojected height-above-nearest-drainage layer (`none`
models a no-data cell, whose comparison with 45 is false, as a `nan`
comparison is in numpy). The condition `np_hand<=45` is split out as
`handLE45`. -/
def handLE45 {h w : ℕ} (hand : Fin h × Fin w → Option ℤ) (p : Fin h × Fin w) : Bool :=
  match hand p with
  | some v => decide (v ≤ 45)
  | none => false

/-- Rule 1 proper, see `handLE45`. -/
def rule1 {h w : ℕ} (orig : Grid h w) (hand : Fin h × Fin w → Option ℤ)
    (river : Grid h w) (cur : Grid h w) : Grid h w :=
  fun i j =>
    if (orig i j = dict_map "Water Body" ∧ handLE45 hand (i, j) = true) ∨
        river i j = 1
    then dict_map "Water Body" else cur i j

/-- Reclassification rule 2:
`np_lc_map_postproc[(np_google_buildings_mask==1)|(np_wsf2019==wsfFg)]
=dict_map['Urban Settlement']`, parameterised by the WSF foreground
literal `wsfFg` (255 in the demonstration cell, 1 in the loop body). -/
def rule2 {h w : ℕ} (buildings wsf : Grid h w) (wsfFg : ℕ) (cur : Grid h w) : Grid h w :=
  fun i j =>
    if buildings i j = 1 ∨ wsf i j = wsfFg
    then dict_map "Urban Settlement" else cur i j

/-- Reclassification rule 3:
`urban_buffered=binary_dilation(np_lc_map==dict_map['Urban Settlement'],footprint=disk(5))`
followed by
`np_lc_map_postproc[(urban_buffered==1)&(np_lc_map==dict_map['Wetland'])]
=dict_map['Annual Cropland']`.  Both conditions read `np_lc_map`, the
original raster, not the in-progress output. -/
def rule3 {h w : ℕ} (orig : Grid h w) (cur : Grid h w) : Grid h w :=
  fun i j =>
    if dilatedUrban orig (i, j) = true ∧ orig i j = dict_map "Wetland"
    then dict_map "Annual Cropland" else cur i j

/-- Reclassification rule 4:
`np_lc_map_postproc[np_road_network_mask==1]=dict_map['Urban Settlement']`. -/
def rule4 {h w : ℕ} (road : Grid h w) (cur : Grid h w) : Grid h w :=
  fun i j => if road i j = 1 then dict_map "Urban Settlement" else cur i j

/-- The single-location refinement pipeline of the notebook: mode filter
on the original raster, then rules 1–4 in order, each writing into the
in-progress output (last write wins).  `wsfFg` is the WSF foreground
literal compared against in rule 2. -/
def refineOne {h w : ℕ} (wsfFg : ℕ) (orig : Grid h w)
    (hand : Fin h × Fin w → Option ℤ)
    (river buildings wsf road : Grid h w) : Grid h w :=
  rule4 road (rule3 orig (rule2 buildings wsf wsfFg (rule1 orig hand river (modalFilter orig))))

/-- The WSF foreground literal of the demonstration cell:
`np_lc_map_postproc[(np_google_buildings_mask==1)|(np_wsf2019==255)]=...`. -/
def wsfForegroundDemo : ℕ := 255

/-- The WSF foreground literal of the all-locations loop body:
`np_lc_map_postproc[(np_google_buildings_mask==1)|(np_wsf2019==1)]=...`. -/
def wsfForegroundLoop : ℕ := 1

/-- The individually demonstrated refinement steps (mode filter, rules
1–4) applied to one location, as in the demonstration cells. -/
def postprocDemo {h w : ℕ} (orig : Grid h w) (hand : Fin h × Fin w → Option ℤ)
    (river buildings wsf road : Grid h w) : Grid h w :=
  refineOne wsfForegroundDemo orig hand river buildings wsf road

/-- The body of the all-locations refinement loop applied to one
location, with its auxiliary layers already aligned. -/
def postprocLoop {h w : ℕ} (orig : Grid h w) (hand : Fin h × Fin w → Option ℤ)
    (river buildings wsf road : Grid h w) : Grid h w :=
  refineOne wsfForegroundLoop orig hand river buildings wsf road

/-! ## Training-label filter (`1_Filter_Training_Data.ipynb`) -/

/-- The loop of `find_clusters_KMeans`, threading the notebook's mutable
state `(n_cluster_optimal, kmeans_model_optimal, highest_score)`.
The K-Means fit is deterministic (`random_state=1`), so the fitted model
is identified by its cluster count and the Calinski–Harabasz score of a
candidate count is a function `score` of that count alone.  The update
condition is the notebook's `(highest_score==-999)or(highest_score<score)`. -/
def fckLoop (score : ℕ → ℚ) : List ℕ → ℕ × Option ℕ × ℚ → ℕ × Option ℕ × ℚ
  | [], st => st
  | n :: ns, (nOpt, mOpt, hs) =>
    if hs = -999 ∨ hs < score n then fckLoop score ns (n, some n, score n)
    else fckLoop score ns (nOpt, mOpt, hs)

/-- `find_clusters_KMeans(data, min_cluster, max_cluster)`: iterate the
candidate counts `range(min_cluster, max_cluster)` from the initial state
`(min_cluster, None, -999)` and return the final
`(n_cluster_optimal, kmeans_model_optimal, highest_score)`.  The returned
`Option ℕ` stands for `kmeans_model_optimal` (`none` is Python's `None`;
`some k` the model fitted with `k` clusters and seed 1). -/
def find_clusters_KMeans (score : ℕ → ℚ) (min_cluster max_cluster : ℕ) :
    ℕ × Option ℕ × ℚ :=
  fckLoop score (List.range' min_cluster (max_cluster - min_cluster))
    (min_cluster, none, -999)

/-- The notebook's default cluster-frequency threshold
`frequency_threshold=0.05`. -/
def frequency_threshold : ℚ := 0.05

/-- `value_counts(normalize=True)` looked up at cluster `c`: the number
of training points of the class assigned to cluster `c` divided by the
class's total training-point count.  A training point is a pair
`(row index, assigned cluster)`. -/
def cluster_frequency (td : List (ℕ × ℕ)) (c : ℕ) : ℚ :=
  ((td.map Prod.snd).count c : ℚ) / (td.length : ℚ)

/-- `td_single_class_filtered=td_single_class[td_single_class['cluster_frequency']>=frequency_threshold]`:
keep exactly the rows whose assigned cluster has relative frequency at
least the threshold. -/
def td_filter (thr : ℚ) (td : List (ℕ × ℕ)) : List (ℕ × ℕ) :=
  td.filter (fun p => decide (thr ≤ cluster_frequency td p.2))

/-- The per-class orchestration loop (`for i in lc_classes:`).  The body
(sampling, scaling, clustering, frequency filtering for one class) is
abstracted as `f`; a raised exception is `Except.error`.  The loop has no
`try`/`except`: the first exception propagates and no aggregate output is
produced, exactly as in the notebook, where `training_features_filtered`
is built by successive `pd.concat` calls. -/
def filterAllClasses (f : ℕ → Except String (List (ℕ × ℕ))) :
    List ℕ → Except String (List (ℕ × ℕ))
  | [] => Except.ok []
  | c :: cs =>
    match f c with
    | Except.error e => Except.error e
    | Except.ok pts =>
      match filterAllClasses f cs with
      | Except.error e => Except.error e
      | Except.ok rest => Except.ok (pts ++ rest)

/-! ## Resampling methods of the alignment calls -/

/-- The `resampling` keyword values appearing in the notebook's
`xr_reproject` calls. -/
inductive Resampling
  | nearest
  | average
deriving DecidableEq

/-- `xr_reproject(hand, ds_geobox, resampling="average")` (demo cell and
loop body alike). -/
def hand_resampling : Resampling := Resampling.average

/-- `xr_reproject(wsf2019, ds_geobox, resampling="nearest")` in the
demonstration cell. -/
def wsf2019_resampling_demo : Resampling := Resampling.nearest

/-- `xr_reproject(wsf2019, ds_geobox, resampling="nearest")` in the
all-locations loop. -/
def wsf2019_resampling_loop : Resampling := Resampling.nearest

/-- `xr_reproject(google_buildings, ds_geobox, resampling="average")` in
the demonstration cell. -/
def google_buildings_resampling_demo : Resampling := Resampling.average

/-- `xr_reproject(google_buildings, ds_geobox, resampling="average")` in
the all-locations loop. -/
def google_buildings_resampling_loop : Resampling := Resampling.average

/-- The claim's reading of the alignment calls: both binary footprint
layers resampled with `nearest`, the continuous `hand` layer with
`average`.  Stated from the specification's words for comparison with
the constants recorded from the source. -/
def resamplingAsClaimed : Prop :=
  google_buildings_resampling_demo = Resampling.nearest ∧
  google_buildings_resampling_loop = Resampling.nearest ∧
  wsf2019_resampling_demo = Resampling.nearest ∧
  wsf2019_resampling_loop = Resampling.nearest ∧
  hand_resampling = Resampling.average

/-! ## The all-locations refinement loop

The loop reads each location's auxiliary layers by reprojecting the
variables `hand` and `wsf2019` — and reassigns those same variables:
`hand=xr_reproject(hand, ds_geobox, resampling="average")` and
`wsf2019=xr_reproject(wsf2019, ds_geobox, resampling="nearest")`.
Layers live on a global integer grid; a geobox is the window of the
location's raster in that grid, and reprojection onto a geobox restricts
a layer to the window's extent (cells outside become no-data), which is
what reprojecting onto a target grid does to the parts of the source
that fall outside it. -/

/-- A global auxiliary layer: a value per world cell, `none` = no-data. -/
abbrev Layer := ℤ → ℤ → Option ℤ

/-- The grid window of one location inside the world grid. -/
structure Geobox where
  y0 : ℤ
  x0 : ℤ

/-- `xr_reproject(layer, ds_geobox, ...)` for an aligned, equally spaced
target window of shape `h × w`: values inside the window are carried
over, everything outside the window's extent is no-data. -/
def xr_reproject (l : Layer) (g : Geobox) (h w : ℕ) : Layer :=
  fun y x =>
    if g.y0 ≤ y ∧ y < g.y0 + h ∧ g.x0 ≤ x ∧ x < g.x0 + w then l y x else none

/-- Read a reprojected continuous layer at the location's pixels. -/
def localHand {h w : ℕ} (l : Layer) (g : Geobox) : Fin h × Fin w → Option ℤ :=
  fun p => l (g.y0 + ((p.1 : ℕ) : ℤ)) (g.x0 + ((p.2 : ℕ) : ℤ))

/-- Read a reprojected or rasterised mask layer at the location's pixels
(no-data cells read as 0, i.e. background). -/
def localMask {h w : ℕ} (l : Layer) (g : Geobox) : Grid h w :=
  fun i j => ((l (g.y0 + ((i : ℕ) : ℤ)) (g.x0 + ((j : ℕ) : ℤ))).getD 0).toNat

/-- One location of the loop: its geobox and its classified raster. -/
structure Location (h w : ℕ) where
  geobox : Geobox
  lc_map : Grid h w

/-- The mutable variables the loop reassigns across iterations. -/
structure AuxState where
  hand : Layer
  wsf : Layer

/-- One iteration of the all-locations loop: reproject `hand` and
`wsf2019` onto this location's geobox (reassigning both variables),
rasterise/reproject the read-only river, road and building layers from
their unchanged globals, and run the refinement body (with the loop's
WSF foreground literal).  Returns the updated variables and the
location's refined raster. -/
def stepLocation (h w : ℕ) (riverL roadL buildL : Layer) (st : AuxState)
    (loc : Location h w) : AuxState × Grid h w :=
  let handR := xr_reproject st.hand loc.geobox h w
  let wsfR := xr_reproject st.wsf loc.geobox h w
  (⟨handR, wsfR⟩,
    refineOne wsfForegroundLoop loc.lc_map (localHand handR loc.geobox)
      (localMask riverL loc.geobox) (localMask buildL loc.geobox)
      (localMask wsfR loc.geobox) (localMask roadL loc.geobox))

/-- The loop `for i in range(0,len(prediction_maps)):`, producing one
refined raster per location in processing order and threading the
reassigned `hand`/`wsf2019` variables from one iteration to the next. -/
def refineLoop (h w : ℕ) (riverL roadL buildL : Layer) :
    AuxState → List (Location h w) → List (Grid h w)
  | _, [] => []
  | st, loc :: rest =>
    let r := stepLocation h w riverL roadL buildL st loc
    r.2 :: refineLoop h w riverL roadL buildL r.1 rest

/-- Indexing helper: the `n`-th output raster of the loop (the all-zero
raster out of range). -/
def nthOutput {h w : ℕ} (outs : List (Grid h w)) (n : ℕ) : Grid h w :=
  outs.getD n (fun _ _ => 0)

/-! ## Concrete instances used in counterexamples and witnesses -/

/-- A score function with a unique peak at 4 clusters. -/
def witScore : ℕ → ℚ := fun k => if k = 4 then 10 else 1

/-- A constant score function, for the degenerate-range evaluation. -/
def cexScore : ℕ → ℚ := fun _ => 1

/-- The specification's boundary scenario: 200 training points of one
class, 190 assigned to cluster 0 and 10 to cluster 1 (frequencies 0.95
and exactly 0.05). -/
def td200 : List (ℕ × ℕ) :=
  (List.range 190).map (fun i => (i, 0)) ++ (List.range 10).map (fun i => (190 + i, 1))

/-- A per-class filter body in which class 2 has too little data to fit
the requested cluster range and raises, while every other class filters
successfully to a single point. -/
def cexClassFilter : ℕ → Except String (List (ℕ × ℕ)) :=
  fun c => if c = 2 then Except.error "InsufficientDataError" else Except.ok [(c, 0)]

/-- A 1×2 original raster: pixel 0 Urban Settlement, pixel 1 Wetland. -/
def c2orig : Grid 1 2 := fun _ j => if (j : ℕ) = 0 then 13 else 11

/-- A building-footprint mask covering both pixels. -/
def c2build : Grid 1 2 := fun _ _ => 1

/-- The all-background 1×2 mask. -/
def c2zero : Grid 1 2 := fun _ _ => 0

/-- A hand layer with no data at either pixel. -/
def c2hand : Fin 1 × Fin 2 → Option ℤ := fun _ => none

/-- The in-progress output after the mode filter and rules 1 and 2 on
`c2orig` with `c2build` covering everything: both pixels are Urban
Settlement (pixel 1 was made Urban by rule 2, not in the original). -/
def c2cur : Grid 1 2 :=
  rule2 c2build c2zero wsfForegroundLoop (rule1 c2orig c2hand c2zero (modalFilter c2orig))

/-- The claim's reading of rule 3, stated from the specification's words
for comparison: the dilation predicate over the original raster, but the
Wetland test on the in-progress output `cur`. -/
def rule3AsClaimed {h w : ℕ} (orig : Grid h w) (cur : Grid h w) : Grid h w :=
  fun i j =>
    if dilatedUrban orig (i, j) = true ∧ cur i j = dict_map "Wetland"
    then dict_map "Annual Cropland" else cur i j

/-- A 1×1 original raster of class Grassland. -/
def c3orig : Grid 1 1 := fun _ _ => 5

/-- A 1×1 WSF layer holding the value 255. -/
def c3wsf : Grid 1 1 := fun _ _ => 255

/-- The all-background 1×1 mask. -/
def c3zero : Grid 1 1 := fun _ _ => 0

/-- A 1×1 hand layer with no data. -/
def c3hand : Fin 1 × Fin 1 → Option ℤ := fun _ => none

/-- A 1×1 WSF layer holding the background value 0. -/
def c3wsf0 : Grid 1 1 := fun _ _ => 0

/-- A global hand layer: height 30 everywhere. -/
def c4handG : Layer := fun _ _ => some 30

/-- A global all-background layer. -/
def c4zeroL : Layer := fun _ _ => some 0

/-- The geobox of the first location, at the world origin. -/
def c4gb0 : Geobox := ⟨0, 0⟩

/-- The geobox of the second location, 100 cells away (the two 1×2
windows are disjoint). -/
def c4gb1 : Geobox := ⟨100, 100⟩

/-- The first location's classified raster: all Grassland. -/
def c4map0 : Grid 1 2 := fun _ _ => 5

/-- The second location's classified raster: one Water Body pixel next
to one Grassland pixel (the mode filter turns the Water pixel into
Grassland; rule 1 restores it only where the hand layer has data). -/
def c4map1 : Grid 1 2 := fun _ j => if (j : ℕ) = 0 then 12 else 5

/-- The first location. -/
def c4loc0 : Location 1 2 := ⟨c4gb0, c4map0⟩

/-- The second location. -/
def c4loc1 : Location 1 2 := ⟨c4gb1, c4map1⟩

/-- The loop's initial variables: the global hand and WSF layers. -/
def c4init : AuxState := ⟨c4handG, c4zeroL⟩

/-- A 1×1 raster of class Forest, for witnesses. -/
def w1orig : Grid 1 1 := fun _ _ => 1

/-- A 1×1 all-zero raster, for witnesses. -/
def w1zero : Grid 1 1 := fun _ _ => 0

/-! ## Helper lemmas -/

lemma mem_allPixels {h w : ℕ} (p : Fin h × Fin w) : p ∈ allPixels h w := by
  rcases p with ⟨i, j⟩
  unfold allPixels
  rw [List.mem_flatMap]
  exact ⟨i, List.mem_finRange i, List.mem_map.mpr ⟨j, List.mem_finRange j, rfl⟩⟩

lemma inDisk_self {h w : ℕ} (r : ℕ) (p : Fin h × Fin w) : inDisk r p p = true := by
  unfold inDisk
  simp only [sub_self, decide_eq_true_eq]
  positivity

lemma self_mem_votes {h w : ℕ} (img : Grid h w) (i : Fin h) (j : Fin w)
    (hne : img i j ≠ 0) : img i j ∈ votes img (i, j) := by
  unfold votes
  refine List.mem_map.mpr ⟨(i, j), List.mem_filter.mpr ⟨mem_allPixels _, ?_⟩, rfl⟩
  simp [inDisk_self, hne]

lemma votes_values {h w : ℕ} (img : Grid h w) (p : Fin h × Fin w) (v : ℕ)
    (hv : v ∈ votes img p) : ∃ q : Fin h × Fin w, img q.1 q.2 = v := by
  unfold votes at hv
  rcases List.mem_map.mp hv with ⟨q, _, rfl⟩
  exact ⟨q, rfl⟩

lemma votes_ne_zero {h w : ℕ} (img : Grid h w) (p : Fin h × Fin w) (v : ℕ)
    (hv : v ∈ votes img p) : v ≠ 0 := by
  unfold votes at hv
  rcases List.mem_map.mp hv with ⟨q, hq, rfl⟩
  have h2 := (List.mem_filter.mp hq).2
  simp only [Bool.and_eq_true, bne_iff_ne, ne_eq] at h2
  exact h2.2

lemma foldl_betterMode_mem (l : List ℕ) :
    ∀ (t : List ℕ) (acc : ℕ),
      t.foldl (betterMode l) acc = acc ∨ t.foldl (betterMode l) acc ∈ t := by
  intro t
  induction t with
  | nil => intro acc; left; rfl
  | cons v t ih =>
    intro acc
    rw [List.foldl_cons]
    rcases ih (betterMode l acc v) with hc | hc
    · rw [hc]
      unfold betterMode
      by_cases hb : l.count acc < l.count v ∨ (l.count v = l.count acc ∧ v < acc)
      · right; rw [if_pos hb]; exact List.mem_cons_self v t
      · left; rw [if_neg hb]
    · right; exact List.mem_cons_of_mem v hc

lemma modeVal_mem (l : List ℕ) (hl : l ≠ []) : modeVal l ∈ l := by
  cases l with
  | nil => exact absurd rfl hl
  | cons a t =>
    have hdef : modeVal (a :: t) = (a :: t).foldl (betterMode (a :: t)) a := rfl
    rw [hdef]
    rcases foldl_betterMode_mem (a :: t) (a :: t) a with hc | hc
    · rw [hc]; exact List.mem_cons_self a t
    · exact hc

lemma modalFilter_mem_codes {h w : ℕ} (orig : Grid h w)
    (hin : ∀ i j, orig i j ∈ classCodesWithNodata) (i : Fin h) (j : Fin w) :
    modalFilter orig i j ∈ classCodesWithNodata := by
  unfold modalFilter
  by_cases h0 : orig i j = 0
  · rw [if_pos h0, h0]; decide
  · rw [if_neg h0]
    have hself := self_mem_votes orig i j h0
    have hne : votes orig (i, j) ≠ [] := by
      intro he
      rw [he] at hself
      exact List.not_mem_nil _ hself
    rcases votes_values orig (i, j) _ (modeVal_mem _ hne) with ⟨q, hq⟩
    rw [← hq]
    exact hin q.1 q.2

lemma td_filter_rat_nat (a b : ℕ) (hb : 0 < b) (td : List (ℕ × ℕ))
    (htd : td.length ≠ 0) :
    td_filter ((a : ℚ) / (b : ℚ)) td
      = td.filter
          (fun p => decide (a * td.length ≤ ((td.map Prod.snd).count p.2) * b)) := by
  unfold td_filter
  apply List.filter_congr
  intro p _
  rw [decide_eq_decide]
  unfold cluster_frequency
  have hbq : (0 : ℚ) < (b : ℚ) := by exact_mod_cast hb
  have hLq : (0 : ℚ) < (td.length : ℚ) := by
    exact_mod_cast Nat.pos_of_ne_zero htd
  rw [div_le_div_iff₀ hbq hLq]
  exact_mod_cast Iff.rfl

/-- Unfolding equation for one iteration of the selection loop. -/
lemma fckLoop_cons (score : ℕ → ℚ) (n : ℕ) (ns : List ℕ) (nOpt : ℕ)
    (mOpt : Option ℕ) (hs : ℚ) :
    fckLoop score (n :: ns) (nOpt, mOpt, hs)
      = if hs = -999 ∨ hs < score n then fckLoop score ns (n, some n, score n)
        else fckLoop score ns (nOpt, mOpt, hs) := rfl

/-- The specification invariant of `find_clusters_KMeans`, proved by
induction along the candidate list: starting from a champion `n0` whose
score is current-best, the loop returns the first strict maximum among
`n0` and the remaining (ascending, all larger than `n0`) candidates,
together with the model fitted at that count and its score. -/
lemma fckLoop_spec (score : ℕ → ℚ) (hpos : ∀ k, 0 ≤ score k) :
    ∀ (ns : List ℕ) (n0 : ℕ), (∀ k ∈ ns, n0 < k) → List.Pairwise (· < ·) ns →
      (fckLoop score ns (n0, some n0, score n0)).2.1
          = some (fckLoop score ns (n0, some n0, score n0)).1 ∧
      (fckLoop score ns (n0, some n0, score n0)).2.2
          = score (fckLoop score ns (n0, some n0, score n0)).1 ∧
      ((fckLoop score ns (n0, some n0, score n0)).1 = n0 ∨
          (fckLoop score ns (n0, some n0, score n0)).1 ∈ ns) ∧
      n0 ≤ (fckLoop score ns (n0, some n0, score n0)).1 ∧
      score n0 ≤ score (fckLoop score ns (n0, some n0, score n0)).1 ∧
      (∀ k ∈ ns, score k ≤ score (fckLoop score ns (n0, some n0, score n0)).1) ∧
      (n0 < (fckLoop score ns (n0, some n0, score n0)).1 →
          score n0 < score (fckLoop score ns (n0, some n0, score n0)).1) ∧
      (∀ k ∈ ns, k < (fckLoop score ns (n0, some n0, score n0)).1 →
          score k < score (fckLoop score ns (n0, some n0, score n0)).1) := by
  intro ns
  induction ns with
  | nil =>
    intro n0 _ _
    refine ⟨rfl, rfl, Or.inl rfl, le_refl _, le_refl _, ?_, ?_, ?_⟩
    · intro k hk; exact absurd hk (List.not_mem_nil k)
    · intro hlt; exact absurd hlt (lt_irrefl n0)
    · intro k hk; exact absurd hk (List.not_mem_nil k)
  | cons n ns ih =>
    intro n0 hgt hpair
    have hsent : ¬ score n0 = -999 := by
      intro he
      have := hpos n0
      rw [he] at this
      norm_num at this
    have hn0n : n0 < n := hgt n (List.mem_cons_self n ns)
    have htail : ∀ k ∈ ns, n < k := fun k hk => (List.pairwise_cons.mp hpair).1 k hk
    have hpairtail : List.Pairwise (· < ·) ns := (List.pairwise_cons.mp hpair).2
    by_cases hlt : score n0 < score n
    · have hcond : (score n0 = -999 ∨ score n0 < score n) := Or.inr hlt
      have hstep : fckLoop score (n :: ns) (n0, some n0, score n0)
          = fckLoop score ns (n, some n, score n) := by
        rw [fckLoop_cons, if_pos hcond]
      rw [hstep]
      rcases ih n htail hpairtail with ⟨h1, h2, h3, h4, h5, h6, h7, h8⟩
      refine ⟨h1, h2, ?_, ?_, ?_, ?_, ?_, ?_⟩
      · rcases h3 with hc | hc
        · exact Or.inr (by rw [hc]; exact List.mem_cons_self n ns)
        · exact Or.inr (List.mem_cons_of_mem n hc)
      · exact le_of_lt (lt_of_lt_of_le hn0n h4)
      · exact le_of_lt (lt_of_lt_of_le hlt h5)
      · intro k hk
        rcases List.mem_cons.mp hk with hc | hc
        · rw [hc]; exact h5
        · exact h6 k hc
      · intro _
        exact lt_of_lt_of_le hlt h5
      · intro k hk hklt
        rcases List.mem_cons.mp hk with hc | hc
        · subst hc; exact h7 hklt
        · exact h8 k hc hklt
    · have hcond : ¬ (score n0 = -999 ∨ score n0 < score n) := by
        intro hc
        rcases hc with hc | hc
        · exact hsent hc
        · exact hlt hc
      have hstep : fckLoop score (n :: ns) (n0, some n0, score n0)
          = fckLoop score ns (n0, some n0, score n0) := by
        rw [fckLoop_cons, if_neg hcond]
      rw [hstep]
      have hgt' : ∀ k ∈ ns, n0 < k := fun k hk => lt_trans hn0n (htail k hk)
      rcases ih n0 hgt' hpairtail with ⟨h1, h2, h3, h4, h5, h6, h7, h8⟩
      have hscn : score n ≤ score n0 := le_of_not_lt hlt
      refine ⟨h1, h2, ?_, h4, h5, ?_, h7, ?_⟩
      · rcases h3 with hc | hc
        · exact Or.inl hc
        · exact Or.inr (List.mem_cons_of_mem n hc)
      · intro k hk
        rcases List.mem_cons.mp hk with hc | hc
        · rw [hc]; exact le_trans hscn h5
        · exact h6 k hc
      · intro k hk hklt
        rcases List.mem_cons.mp hk with hc | hc
        · subst hc
          have hres : (fckLoop score ns (n0, some n0, score n0)).1 ∈ ns := by
            rcases h3 with hc2 | hc2
            · rw [hc2] at hklt
              exact absurd hklt (not_lt_of_le (le_of_lt hn0n))
            · exact hc2
          have : n0 < (fckLoop score ns (n0, some n0, score n0)).1 := hgt' _ hres
          exact lt_of_le_of_lt hscn (h7 this)
        · exact h8 k hc hklt

/-- The first-strict-maximum characterisation of `find_clusters_KMeans`
on a non-degenerate range, given that all candidate scores are
non-negative (the Calinski–Harabasz index is a quotient of non-negative
dispersions, so in particular no score collides with the sentinel
`-999`). -/
lemma find_clusters_spec (score : ℕ → ℚ) (minC maxC : ℕ)
    (hrange : minC < maxC) (hpos : ∀ k, 0 ≤ score k) :
    (minC ≤ (find_clusters_KMeans score minC maxC).1 ∧
        (find_clusters_KMeans score minC maxC).1 < maxC) ∧
    (find_clusters_KMeans score minC maxC).2.1
        = some (find_clusters_KMeans score minC maxC).1 ∧
    (find_clusters_KMeans score minC maxC).2.2
        = score (find_clusters_KMeans score minC maxC).1 ∧
    (∀ k, minC ≤ k → k < maxC →
        score k ≤ score (find_clusters_KMeans score minC maxC).1) ∧
    (∀ k, minC ≤ k → k < (find_clusters_KMeans score minC maxC).1 →
        score k < score (find_clusters_KMeans score minC maxC).1) := by
  have hm : maxC - minC = (maxC - minC - 1) + 1 := by omega
  have hfirst : find_clusters_KMeans score minC maxC
      = fckLoop score (List.range' (minC + 1) (maxC - minC - 1))
          (minC, some minC, score minC) := by
    unfold find_clusters_KMeans
    rw [hm, List.range'_succ, fckLoop_cons, if_pos (Or.inl rfl)]
    simp
  have hgt : ∀ k ∈ List.range' (minC + 1) (maxC - minC - 1), minC < k := by
    intro k hk
    have := (List.mem_range'_1.mp hk).1
    omega
  have hpair : List.Pairwise (· < ·) (List.range' (minC + 1) (maxC - minC - 1)) :=
    List.pairwise_lt_range' (minC + 1) (maxC - minC - 1)
  rcases fckLoop_spec score hpos (List.range' (minC + 1) (maxC - minC - 1)) minC
      hgt hpair with ⟨h1, h2, h3, h4, h5, h6, h7, h8⟩
  have hrmax : (fckLoop score (List.range' (minC + 1) (maxC - minC - 1))
      (minC, some minC, score minC)).1 < maxC := by
    rcases h3 with hc | hc
    · omega
    · have := (List.mem_range'_1.mp hc).2
      omega
  rw [hfirst]
  refine ⟨⟨h4, hrmax⟩, h1, h2, ?_, ?_⟩
  · intro k hk1 hk2
    by_cases hkm : k = minC
    · rw [hkm]; exact h5
    · exact h6 k (List.mem_range'_1.mpr ⟨by omega, by omega⟩)
  · intro k hk1 hk2
    by_cases hkm : k = minC
    · subst hkm
      exact h7 hk2
    · exact h8 k (List.mem_range'_1.mpr ⟨by omega, by omega⟩) hk2

lemma witScore_nonneg : ∀ k, 0 ≤ witScore k := by
  intro k
  unfold witScore
  split <;> norm_num

lemma cexScore_nonneg : ∀ k, 0 ≤ cexScore k := by
  intro k
  unfold cexScore
  norm_num

lemma ite_mem_codes (c : Prop) [Decidable c] (K v : ℕ)
    (hK : K ∈ classCodesWithNodata) (hv : v ∈ classCodesWithNodata) :
    (if c then K else v) ∈ classCodesWithNodata := by
  by_cases hc : c
  · rw [if_pos hc]; exact hK
  · rw [if_neg hc]; exact hv

/-- Unfolding equation for one iteration of the per-class loop. -/
lemma filterAllClasses_cons (f : ℕ → Except String (List (ℕ × ℕ))) (c0 : ℕ)
    (cs : List ℕ) :
    filterAllClasses f (c0 :: cs)
      = match f c0 with
        | Except.error e => Except.error e
        | Except.ok pts =>
          match filterAllClasses f cs with
          | Except.error e => Except.error e
          | Except.ok rest => Except.ok (pts ++ rest) := rfl

/-! ## Claim theorems -/

/-- C1: on a non-empty candidate range `[min_cluster, max_cluster)` the
function `find_clusters_KMeans` evaluates the (seed-fixed, hence
deterministic) K-Means fit and Calinski–Harabasz score at every
candidate count and returns the count whose score is the strictly
highest, together with the model fitted at that count; on ties the
smaller count, encountered first in ascending order, wins: every
candidate below the returned one scores strictly less.  The scores are
non-negative, as the Calinski–Harabasz index is. -/
theorem C1_find_clusters_first_strict_max (score : ℕ → ℚ) (minC maxC : ℕ)
    (hrange : minC < maxC) (hpos : ∀ k, 0 ≤ score k) :
    (minC ≤ (find_clusters_KMeans score minC maxC).1 ∧
        (find_clusters_KMeans score minC maxC).1 < maxC) ∧
    (find_clusters_KMeans score minC maxC).2.1
        = some (find_clusters_KMeans score minC maxC).1 ∧
    (find_clusters_KMeans score minC maxC).2.2
        = score (find_clusters_KMeans score minC maxC).1 ∧
    (∀ k, minC ≤ k → k < maxC →
        score k ≤ score (find_clusters_KMeans score minC maxC).1) ∧
    (∀ k, minC ≤ k → k < (find_clusters_KMeans score minC maxC).1 →
        score k < score (find_clusters_KMeans score minC maxC).1) :=
  find_clusters_spec score minC maxC hrange hpos

/-- Witness for C1 at the concrete score function `witScore` (peak at 4)
on the range `[3, 6)`. -/
theorem C1_find_clusters_first_strict_max_witness :
    (3 < 6 ∧ ∀ k, 0 ≤ witScore k) ∧
    (3 ≤ (find_clusters_KMeans witScore 3 6).1 ∧
        (find_clusters_KMeans witScore 3 6).1 < 6) ∧
    find_clusters_KMeans witScore 3 6 = (4, some 4, 10) :=
  ⟨⟨by norm_num, witScore_nonneg⟩,
    (C1_find_clusters_first_strict_max witScore 3 6 (by norm_num) witScore_nonneg).1,
    by decide⟩

/-- C2 counterexample: at pixel (0,1) of `c2orig` the original class is
Wetland and the in-progress class after rules 1–2 is Urban Settlement
(set by rule 2 from the building mask).  The claim's reading (current
class must be Wetland) leaves the pixel Urban, but the code, which tests
the original raster, rewrites it to Annual Cropland. -/
theorem C2_rule3_counterexample :
    c2cur 0 1 = dict_map "Urban Settlement" ∧
    c2orig 0 1 = dict_map "Wetland" ∧
    rule3 c2orig c2cur 0 1 = dict_map "Annual Cropland" ∧
    rule3AsClaimed c2orig c2cur 0 1 = dict_map "Urban Settlement" ∧
    rule3 c2orig c2cur 0 1 ≠ rule3AsClaimed c2orig c2cur 0 1 := by
  refine ⟨by decide, by decide, by decide, by decide, by decide⟩

/-- C2 amended: rule 3 sets a pixel to Annual Cropland exactly when the
pixel lies in the disk-5 dilation of the pixels that are Urban
Settlement in the original raster AND the pixel's class in the original
raster (not the in-progress output) is Wetland; and a pixel outside the
dilation of the original Urban pixels is never touched by rule 3, so
pixels newly made Urban by rule 2 (present only in `cur`) cannot feed
the dilation predicate. -/
theorem C2_rule3_amended {h w : ℕ} (orig cur : Grid h w) (i : Fin h) (j : Fin w) :
    (rule3 orig cur i j = dict_map "Annual Cropland" ↔
      (dilatedUrban orig (i, j) = true ∧ orig i j = dict_map "Wetland") ∨
        cur i j = dict_map "Annual Cropland") ∧
    (dilatedUrban orig (i, j) = false → rule3 orig cur i j = cur i j) := by
  constructor
  · unfold rule3
    by_cases hc : dilatedUrban orig (i, j) = true ∧ orig i j = dict_map "Wetland"
    · rw [if_pos hc]
      simp [hc]
    · rw [if_neg hc]
      constructor
      · intro h10
        exact Or.inr h10
      · intro hor
        rcases hor with hor | hor
        · exact absurd hor hc
        · exact hor
  · intro hfalse
    unfold rule3
    rw [if_neg]
    intro hcc
    rw [hfalse] at hcc
    exact Bool.false_ne_true hcc.1

/-- Witness for C2's amended theorem: on an all-Forest raster no pixel
is near an original Urban pixel and rule 3 changes nothing. -/
theorem C2_rule3_amended_witness :
    dilatedUrban w1orig ((0 : Fin 1), (0 : Fin 1)) = false ∧
    rule3 w1orig w1zero 0 0 = w1zero 0 0 :=
  ⟨by decide, (C2_rule3_amended w1orig w1zero 0 0).2 (by decide)⟩

/-- C3 counterexample: on a one-pixel Grassland raster whose WSF layer
reads 255, the demonstrated steps (foreground literal 255) classify the
pixel Urban Settlement while the loop body (foreground literal 1)
leaves it Grassland, so the two pipelines disagree on identical
inputs. -/
theorem C3_pipelines_counterexample :
    postprocDemo c3orig c3hand c3zero c3zero c3wsf c3zero 0 0
      = dict_map "Urban Settlement" ∧
    postprocLoop c3orig c3hand c3zero c3zero c3wsf c3zero 0 0
      = dict_map "Grassland" ∧
    postprocDemo c3orig c3hand c3zero c3zero c3wsf c3zero
      ≠ postprocLoop c3orig c3hand c3zero c3zero c3wsf c3zero := by
  refine ⟨by decide, by decide, by decide⟩

/-- C3 amended: the loop body and the demonstrated steps coincide except
for the WSF foreground literal of rule 2 (255 in the demo, 1 in the
loop): at every pixel whose WSF value is neither 255 nor 1 the two
pipelines produce the same refined value. -/
theorem C3_pipelines_amended {h w : ℕ} (orig : Grid h w)
    (hand : Fin h × Fin w → Option ℤ) (river buildings wsf road : Grid h w)
    (i : Fin h) (j : Fin w) (h255 : wsf i j ≠ 255) (h1 : wsf i j ≠ 1) :
    postprocDemo orig hand river buildings wsf road i j
      = postprocLoop orig hand river buildings wsf road i j := by
  unfold postprocDemo postprocLoop refineOne rule4 rule3 rule2
    wsfForegroundDemo wsfForegroundLoop
  simp [h255, h1]

/-- Witness for C3's amended theorem at a pixel with WSF background 0. -/
theorem C3_pipelines_amended_witness :
    c3wsf0 0 0 ≠ 255 ∧ c3wsf0 0 0 ≠ 1 ∧
    postprocDemo c3orig c3hand c3zero c3zero c3wsf0 c3zero 0 0
      = postprocLoop c3orig c3hand c3zero c3zero c3wsf0 c3zero 0 0 :=
  ⟨by decide, by decide,
    C3_pipelines_amended c3orig c3hand c3zero c3zero c3wsf0 c3zero 0 0
      (by decide) (by decide)⟩

/-- C4: evaluation of the refinement loop at two disjoint locations,
exhibiting the order dependence introduced by the reassignment
`hand=xr_reproject(hand, ds_geobox, ...)`: location `c4loc1` refines to
Grassland (5) at its Water pixel when processed second (its hand layer
has been cropped to `c4loc0`'s extent and is all no-data, so rule 1
cannot fire) but to Water Body (12) when processed first; and
processing `c4loc0` overwrites the `hand` variable, losing the global
layer's value at `c4loc1`'s cells. -/
theorem C4_loop_order_dependence :
    nthOutput (refineLoop 1 2 c4zeroL c4zeroL c4zeroL c4init [c4loc0, c4loc1]) 1 0 0
      = dict_map "Grassland" ∧
    nthOutput (refineLoop 1 2 c4zeroL c4zeroL c4zeroL c4init [c4loc1, c4loc0]) 0 0 0
      = dict_map "Water Body" ∧
    (stepLocation 1 2 c4zeroL c4zeroL c4zeroL c4init c4loc0).1.hand 100 100 = none ∧
    c4init.hand 100 100 = some 30 := by
  refine ⟨by decide, by decide, by decide, by decide⟩

/-- C5 counterexample: with a per-class body that raises for class 2 and
succeeds for classes 1 and 3, the orchestration loop (which has no
exception handling) produces no aggregate output at all: the error
propagates, class 2's points are not retained, and classes 1 and 3 are
not represented in any output, contradicting the claimed skip-and-warn
policy. -/
theorem C5_orchestrator_counterexample :
    cexClassFilter 1 = Except.ok [(1, 0)] ∧
    cexClassFilter 3 = Except.ok [(3, 0)] ∧
    filterAllClasses cexClassFilter [1, 2, 3]
      = Except.error "InsufficientDataError" :=
  ⟨rfl, rfl, rfl⟩

/-- C5 amended: if any class's per-class body raises, the whole
per-class loop terminates with an error; there is no fallback that
skips the class, retains its points or continues with the remaining
classes. -/
theorem C5_orchestrator_amended (f : ℕ → Except String (List (ℕ × ℕ)))
    (cs : List ℕ) (c : ℕ) (e : String) (hc : c ∈ cs)
    (hf : f c = Except.error e) :
    ∃ e2, filterAllClasses f cs = Except.error e2 := by
  induction cs with
  | nil => exact absurd hc (List.not_mem_nil c)
  | cons c0 cs ih =>
    cases hf0 : f c0 with
    | error e0 =>
      refine ⟨e0, ?_⟩
      simp only [filterAllClasses_cons, hf0]
    | ok pts =>
      have hctail : c ∈ cs := by
        rcases List.mem_cons.mp hc with hcc | hcc
        · subst hcc
          rw [hf] at hf0
          exact absurd hf0 (by simp)
        · exact hcc
      rcases ih hctail with ⟨e2, he2⟩
      refine ⟨e2, ?_⟩
      simp only [filterAllClasses_cons, hf0, he2]

/-- Witness for C5's amended theorem at the concrete failing filter. -/
theorem C5_orchestrator_amended_witness :
    (2 ∈ [1, 2, 3] ∧ cexClassFilter 2 = Except.error "InsufficientDataError") ∧
    ∃ e2, filterAllClasses cexClassFilter [1, 2, 3] = Except.error e2 :=
  ⟨⟨by decide, rfl⟩,
    C5_orchestrator_amended cexClassFilter [1, 2, 3] 2 "InsufficientDataError"
      (by decide) rfl⟩

set_option maxRecDepth 40000 in
/-- C6: a training point survives the frequency filter iff it was in the
class's point list and its assigned cluster's relative frequency
(member count over total count) is at least the threshold, the
comparison being inclusive; on the 190/10 boundary scenario the default
threshold 0.05 retains all 200 points while 0.051 retains 190. -/
theorem C6_frequency_filter :
    (∀ (thr : ℚ) (td : List (ℕ × ℕ)) (p : ℕ × ℕ),
        p ∈ td_filter thr td ↔ p ∈ td ∧ thr ≤ cluster_frequency td p.2) ∧
    (td_filter frequency_threshold td200).length = 200 ∧
    (td_filter (0.051 : ℚ) td200).length = 190 := by
  refine ⟨?_, ?_, ?_⟩
  · intro thr td p
    unfold td_filter
    rw [List.mem_filter]
    simp
  · have h1 : frequency_threshold = ((1 : ℕ) : ℚ) / ((20 : ℕ) : ℚ) := by
      unfold frequency_threshold
      norm_num
    rw [h1, td_filter_rat_nat 1 20 (by norm_num) td200 (by decide)]
    decide
  · have h2 : (0.051 : ℚ) = ((51 : ℕ) : ℚ) / ((1000 : ℕ) : ℚ) := by norm_num
    rw [h2, td_filter_rat_nat 51 1000 (by norm_num) td200 (by decide)]
    decide

/-- C7 counterexample: on the degenerate range `[3, 3)` the function
returns normally with the triple `(3, None, -999)`: no error is raised,
the chosen count does not lie in the (empty) range, the model is `None`
and the returned score is the sentinel. -/
theorem C7_degenerate_range_counterexample :
    find_clusters_KMeans cexScore 3 3 = (3, none, -999) ∧
    ¬ (3 ≤ (find_clusters_KMeans cexScore 3 3).1 ∧
        (find_clusters_KMeans cexScore 3 3).1 < 3) := by
  refine ⟨by decide, by decide⟩

/-- C7 amended: the degenerate range returns `(min_cluster, None, -999)`
without raising; whenever the range is non-degenerate (and the
Calinski–Harabasz scores are non-negative), the chosen count lies in
`[min_cluster, max_cluster)` and the returned score is that count's
actual validity score, never the sentinel `-999`. -/
theorem C7_degenerate_range_amended (score : ℕ → ℚ) (minC maxC : ℕ)
    (hrange : minC < maxC) (hpos : ∀ k, 0 ≤ score k) :
    (minC ≤ (find_clusters_KMeans score minC maxC).1 ∧
        (find_clusters_KMeans score minC maxC).1 < maxC) ∧
    (find_clusters_KMeans score minC maxC).2.2
        = score (find_clusters_KMeans score minC maxC).1 ∧
    (find_clusters_KMeans score minC maxC).2.2 ≠ -999 := by
  rcases find_clusters_spec score minC maxC hrange hpos with ⟨ha, _, hcc, _, _⟩
  refine ⟨ha, hcc, ?_⟩
  rw [hcc]
  intro hbad
  have hge := hpos (find_clusters_KMeans score minC maxC).1
  rw [hbad] at hge
  norm_num at hge

/-- Witness for C7's amended theorem on the range `[3, 5)` with constant
scores. -/
theorem C7_degenerate_range_amended_witness :
    (3 < 5 ∧ ∀ k, 0 ≤ cexScore k) ∧
    (find_clusters_KMeans cexScore 3 5).2.2 ≠ -999 :=
  ⟨⟨by norm_num, cexScore_nonneg⟩,
    (C7_degenerate_range_amended cexScore 3 5 (by norm_num) cexScore_nonneg).2.2⟩

/-- C8: the masked mode filter leaves every no-data pixel (code 0)
unchanged, and the no-data code never occurs among the neighbourhood
votes of any pixel. -/
theorem C8_modal_nodata {h w : ℕ} (img : Grid h w) (i : Fin h) (j : Fin w) :
    (img i j = 0 → modalFilter img i j = img i j) ∧ 0 ∉ votes img (i, j) := by
  constructor
  · intro h0
    unfold modalFilter
    rw [if_pos h0]
  · intro hv
    exact votes_ne_zero img (i, j) 0 hv rfl

/-- Witness for C8 on the all-no-data one-pixel raster. -/
theorem C8_modal_nodata_witness :
    w1zero 0 0 = 0 ∧ modalFilter w1zero 0 0 = w1zero 0 0 :=
  ⟨by decide, (C8_modal_nodata w1zero 0 0).1 (by decide)⟩

/-- C9 counterexample: the claim's reading of the alignment calls fails
on the recorded source constants: the building-footprint layer is
resampled with `average`, not `nearest`, in both the demonstration cell
and the loop. -/
theorem C9_resampling_counterexample : ¬ resamplingAsClaimed := by
  intro hcl
  exact absurd hcl.1 (by decide)

/-- C9 amended: the continuous hand layer is resampled with `average`
and the WSF settlement footprint with `nearest` (in both the
demonstration and the loop), but the binary building-footprint layer is
resampled with `average` in both places, deviating from the
nearest-for-categorical rule. -/
theorem C9_resampling_amended :
    hand_resampling = Resampling.average ∧
    wsf2019_resampling_demo = Resampling.nearest ∧
    wsf2019_resampling_loop = Resampling.nearest ∧
    google_buildings_resampling_demo = Resampling.average ∧
    google_buildings_resampling_loop = Resampling.average :=
  ⟨rfl, rfl, rfl, rfl, rfl⟩

/-- C10: if every pixel of the input raster carries a class-dictionary
code or the no-data code, then so does every pixel of the refined
output: the mode filter returns either the no-data pixel itself or a
vote drawn from the input's values, and every rule writes a dictionary
code. -/
theorem C10_class_codes_invariant {h w : ℕ} (wsfFg : ℕ) (orig : Grid h w)
    (hand : Fin h × Fin w → Option ℤ) (river buildings wsf road : Grid h w)
    (hin : ∀ i j, orig i j ∈ classCodesWithNodata) :
    ∀ i j, refineOne wsfFg orig hand river buildings wsf road i j
      ∈ classCodesWithNodata := by
  intro i j
  show (if road i j = 1 then dict_map "Urban Settlement"
      else rule3 orig (rule2 buildings wsf wsfFg
        (rule1 orig hand river (modalFilter orig))) i j)
    ∈ classCodesWithNodata
  refine ite_mem_codes _ _ _ (by decide) ?_
  show (if dilatedUrban orig (i, j) = true ∧ orig i j = dict_map "Wetland"
      then dict_map "Annual Cropland"
      else rule2 buildings wsf wsfFg (rule1 orig hand river (modalFilter orig)) i j)
    ∈ classCodesWithNodata
  refine ite_mem_codes _ _ _ (by decide) ?_
  show (if buildings i j = 1 ∨ wsf i j = wsfFg then dict_map "Urban Settlement"
      else rule1 orig hand river (modalFilter orig) i j) ∈ classCodesWithNodata
  refine ite_mem_codes _ _ _ (by decide) ?_
  show (if (orig i j = dict_map "Water Body" ∧ handLE45 hand (i, j) = true) ∨
        river i j = 1
      then dict_map "Water Body" else modalFilter orig i j) ∈ classCodesWithNodata
  refine ite_mem_codes _ _ _ (by decide) ?_
  exact modalFilter_mem_codes orig hin i j

/-- Witness for C10 on a one-pixel Forest raster with trivial layers. -/
theorem C10_class_codes_invariant_witness :
    (∀ i j, w1orig i j ∈ classCodesWithNodata) ∧
    refineOne 1 w1orig c3hand w1zero w1zero w1zero w1zero 0 0
      ∈ classCodesWithNodata :=
  ⟨by decide,
    C10_class_codes_invariant 1 w1orig c3hand w1zero w1zero w1zero w1zero
      (by decide) 0 0⟩

end FaoLc
